import Mathlib

/-!
The authentication handlers and middleware of leetlab.

A shallow embedding of `backend/src/controllers/auth.controller.js`
(`register`, `login`) and `backend/src/middleware/auth.middleware.js`
(`authMiddleware`).

Every handler is a function from the environment of the request (the
secrets of `process.env` and the behaviour of the bcrypt / jsonwebtoken
primitives), the request and the user table to a `World`: the user table
after the call and the ordered list of the effects the handler performed
(calls on the store, on the primitives, on `res`, the assignment to
`req.user` and the call of `next`).  An `Event.json s b` records one
evaluation of `res.status(s).json(b)`, whether it returns or throws.

The statements of a handler run in source order; an exception raised by a
primitive, by the store, by a property read on `null` or by a call on `res`
transfers control to the enclosing `catch`, and what was done before it
stays done.  A call `res.status(s).json(b)` throws when a response has
already gone out or when `s` is not a status code a Node response accepts
(`resJson`); the response that goes out is the first call that does not
throw (`sentResponse`).  In `register` and `login` a call on `res` that can
throw is the last statement of its path, inside the `catch` block, so their
traces list the same calls either way.
-/

namespace Leetlab

/-! ## Data model -/

/-- The enumeration `UserRole` of the generated persistence client. -/
inductive UserRole where
  | USER
  | ADMIN
deriving DecidableEq, Repr

/-- A row of the user table. -/
structure User where
  id : Nat
  name : String
  email : String
  password : String
  role : UserRole
deriving DecidableEq, Repr

/-- The user table. -/
abbrev Store := List User

/-- A thrown JavaScript value. -/
inductive JsError where
  /-- the engine's `TypeError` for a property read on `null` -/
  | typeError (msg : String)
  /-- an error raised by a library primitive or by the persistence client -/
  | raised (msg : String)
deriving DecidableEq, Repr

/-- The values that occur as fields of the JSON bodies the handlers send. -/
inductive Val where
  | null
  | bool (b : Bool)
  | str (s : String)
  | user (u : User)
  | err (e : JsError)
deriving DecidableEq, Repr

/-- A JSON object literal, as its fields in source order. -/
abbrev Body := List (String × Val)

/-- The options object of `res.cookie`. -/
structure CookieOptions where
  httpOnly : Bool
  sameSite : String
  secure : Bool
  maxAge : Nat
deriving DecidableEq, Repr

/-- The `data` argument of `db.user.create`. -/
structure UserData where
  name : String
  email : String
  password : String
  role : UserRole
deriving DecidableEq, Repr

/-- The payload of a session token. -/
structure Claims where
  id : Nat
deriving DecidableEq, Repr

/-- One effect of a handler, in the order of the source. -/
inductive Event where
  /-- the call `db.user.findUnique` with `where: email` -/
  | findUniqueByEmail (email : String)
  /-- the call `db.user.findUnique` with `where: id` -/
  | findUniqueById (id : Nat)
  /-- the call `db.user.create` -/
  | create (data : UserData)
  /-- the call `bcrypt.hash(password, rounds)` -/
  | bcryptHash (password : String) (rounds : Nat)
  /-- the call `bcrypt.compare(password, digest)` -/
  | bcryptCompare (password : String) (digest : String)
  /-- the call `jwt.sign` with payload `id`, the key and `expiresIn` -/
  | jwtSign (id : Nat) (secret : Option String) (expiresIn : String)
  /-- the call `jwt.verify(token, key)` -/
  | jwtVerify (token : Option String) (secret : Option String)
  /-- the call `res.cookie(name, value, options)` -/
  | cookie (name : String) (value : String) (options : CookieOptions)
  /-- the call `res.status(status).json(body)` -/
  | json (status : Nat) (body : Body)
  /-- the assignment `req.user = user` (`none` is `null`) -/
  | setReqUser (user : Option User)
  /-- the call `next()` -/
  | next
  /-- the call `console.log(msg, error)` -/
  | consoleLog (msg : String) (error : JsError)
deriving DecidableEq, Repr

/-- The environment of one request: `process.env` and the external
primitives, each of which either returns or throws. -/
structure Env where
  /-- the variable `process.env.JWT_SECRET` -/
  JWT_SECRET : Option String
  /-- the variable `process.env.NODE_ENV` -/
  NODE_ENV : Option String
  /-- the primitive `bcrypt.hash(password, rounds)` -/
  hash : String → Nat → Except JsError String
  /-- the primitive `bcrypt.compare(password, digest)` -/
  compare : String → String → Except JsError Bool
  /-- the primitive `jwt.sign` on payload `id`, key, `expiresIn` -/
  sign : Nat → Option String → String → Except JsError String
  /-- the primitive `jwt.verify(token, key)`; the token may be `undefined` -/
  verify : Option String → Option String → Except JsError Claims
  /-- the identifier the persistence layer assigns to the next row -/
  genId : Store → Nat

/-- The user table and the effects performed so far. -/
structure World where
  store : Store
  trace : List Event
deriving DecidableEq, Repr

/-- Append one effect. -/
def World.emit (w : World) (e : Event) : World :=
  { w with trace := w.trace ++ [e] }

/-! ## The credential store accessor -/

/-- Modelled from the spec: `libs/db.js` (the persistence client) is not
among the sources.  "Find by unique email": the row with that email. -/
def findUniqueByEmail (store : Store) (email : String) : Option User :=
  store.find? (fun u => u.email == email)

/-- Modelled from the spec: `libs/db.js` is not among the sources.
"Find by unique id": the row with that id. -/
def findUniqueById (store : Store) (id : Nat) : Option User :=
  store.find? (fun u => u.id == id)

/-- Modelled from the spec: `libs/db.js` is not among the sources.
"Create user": the id is assigned at creation, one row is inserted, and the
table keeps ids and emails unique (a row that would break that is refused
with an error). -/
def dbCreate (env : Env) (store : Store) (data : UserData) :
    Except JsError (User × Store) :=
  let newUser : User :=
    { id := env.genId store, name := data.name, email := data.email,
      password := data.password, role := data.role }
  if store.any (fun u => u.id == newUser.id || u.email == newUser.email) then
    .error (.raised "Unique constraint failed")
  else
    .ok (newUser, store ++ [newUser])

/-! ## Requests -/

/-- The fields `register` reads from `req.body`. -/
structure RegisterBody where
  name : String
  email : String
  password : String
deriving DecidableEq, Repr

/-- The fields `login` reads from `req.body`. -/
structure LoginBody where
  email : String
  password : String
deriving DecidableEq, Repr

/-- What `authMiddleware` reads from the request: `req.cookies.jwt`, a field
of the object the cookie parser provides (`none` when the cookie is absent). -/
structure AuthRequest where
  jwt : Option String
deriving DecidableEq, Repr

/-- JavaScript truthiness of `req.cookies.jwt`: `undefined` and the empty
string are falsy. -/
def truthy (token : Option String) : Bool :=
  match token with
  | none => false
  | some t => t != ""

/-- The cookie options both `register` and `login` pass to `res.cookie`. -/
def sessionCookieOptions (env : Env) : CookieOptions :=
  { httpOnly := true
    sameSite := "strict"
    secure := env.NODE_ENV != some "development"
    maxAge := 1000 * 60 * 60 * 24 * 5 }

/-! ## auth.controller.js -/

/-- The `catch` block of `register` (lines 50-55). -/
def registerCatch (w : World) (error : JsError) : World :=
  (w.emit (.consoleLog "error creating user:" error)).emit
    (.json 500 [("error", .str "Error creating user")])

/-- The handler `register` (lines 7-56). -/
def register (env : Env) (req : RegisterBody) (store : Store) : World :=
  let w : World := { store := store, trace := [] }
  -- lines 10-14
  let w := w.emit (.findUniqueByEmail req.email)
  match findUniqueByEmail w.store req.email with
  | some _ =>
    -- lines 16-20: `return res.status(400).json(...)`
    w.emit (.json 400 [("error", .str "User already exists")])
  | none =>
    -- line 22
    let w := w.emit (.bcryptHash req.password 12)
    match env.hash req.password 12 with
    | .error e => registerCatch w e
    | .ok hashedPassword =>
      -- lines 24-31
      let data : UserData :=
        { name := req.name, email := req.email, password := hashedPassword,
          role := UserRole.USER }
      let w := w.emit (.create data)
      match dbCreate env w.store data with
      | .error e => registerCatch w e
      | .ok (newUser, newStore) =>
        let w := { w with store := newStore }
        -- lines 33-35
        let w := w.emit (.jwtSign newUser.id env.JWT_SECRET "5d")
        match env.sign newUser.id env.JWT_SECRET "5d" with
        | .error e => registerCatch w e
        | .ok token =>
          -- lines 37-42
          let w := w.emit (.cookie "jwt" token (sessionCookieOptions env))
          -- lines 44-47
          w.emit (.json 201 [("message", .str "User created successfully"),
                             ("user", .user newUser)])

/-- The `catch` block of `login` (lines 99-104). -/
def loginCatch (w : World) (error : JsError) : World :=
  w.emit (.json 500 [("message", .str "something went wrong while logging in."),
                     ("error", .err error)])

/-- The handler `login` (lines 58-105). -/
def login (env : Env) (req : LoginBody) (store : Store) : World :=
  let w : World := { store := store, trace := [] }
  -- lines 61-65
  let w := w.emit (.findUniqueByEmail req.email)
  let curr_user := findUniqueByEmail w.store req.email
  -- lines 67-71: the response is sent, the function does not return
  let w :=
    if curr_user.isNone then
      w.emit (.json 400 [("error", .str "user not found, please register.")])
    else w
  -- line 74: the argument `curr_user.password` is evaluated first
  match curr_user with
  | none => loginCatch w (.typeError "Cannot read properties of null (reading password)")
  | some user =>
    let w := w.emit (.bcryptCompare req.password user.password)
    match env.compare req.password user.password with
    | .error e => loginCatch w e
    | .ok passwordMatch =>
      if passwordMatch then
        -- lines 78-80
        let w := w.emit (.jwtSign user.id env.JWT_SECRET "5d")
        match env.sign user.id env.JWT_SECRET "5d" with
        | .error e => loginCatch w e
        | .ok token =>
          -- lines 82-87
          let w := w.emit (.cookie "jwt" token (sessionCookieOptions env))
          -- lines 89-92
          w.emit (.json 200 [("message", .str "User logged in successfully"),
                             ("user", .user user)])
      else
        -- lines 95-97
        w.emit (.json 404 [("message", .str "wrong credentials")])

/-! ## The response object -/

/-- The calls on `res`: status and body of every `res.status(s).json(b)`
evaluated, in order. -/
def responses (tr : List Event) : List (Nat × Body) :=
  tr.filterMap (fun e => match e with
    | .json s b => some (s, b)
    | _ => none)

/-- The status codes a Node response accepts: 100 to 999.  With any other
status `res.status(s).json(b)` throws and nothing goes out. -/
def validStatus (status : Nat) : Bool :=
  decide (100 ≤ status) && decide (status ≤ 999)

/-- The response that went out to the client: the first evaluated
`res.status(s).json(b)` with a valid status.  Every later call finds the
headers sent and throws. -/
def sentResponse (tr : List Event) : Option (Nat × Body) :=
  (responses tr).find? (fun r => validStatus r.1)

/-- The flag `res.headersSent`. -/
def headersSent (tr : List Event) : Bool :=
  (sentResponse tr).isSome

/-- The call `res.status(status).json(body)`: the call is recorded, and the
second component tells whether it throws, which it does when a response has
already gone out or the status is not valid. -/
def resJson (w : World) (status : Nat) (body : Body) : World × Bool :=
  (w.emit (.json status body), headersSent w.trace || !validStatus status)

/-! ## auth.middleware.js -/

/-- The JSON value of a possibly-null user. -/
def userVal (user : Option User) : Val :=
  match user with
  | none => .null
  | some u => .user u

/-- The outer `catch` block of `authMiddleware` (lines 47-52).  When its own
call on `res` throws, the function ends there, with a rejected promise. -/
def authMiddlewareCatch (w : World) : World :=
  (resJson w 500 [("message", .str "user not authenticated"),
                  ("success", .bool false)]).1

/-- The middleware `authMiddleware` (lines 6-53) over a given behaviour of
`db.user.findUnique` by id, which returns a user or `null`, or throws. -/
def authMiddlewareOn (lookup : Nat → Except JsError (Option User))
    (env : Env) (req : AuthRequest) (store : Store) : World :=
  let w : World := { store := store, trace := [] }
  -- line 8
  let token := req.jwt
  -- lines 9-14: the response is sent, the function does not return
  let r :=
    if !truthy token then
      resJson w 401 [("message", .str "user not authenticated"),
                     ("success", .bool false)]
    else (w, false)
  if r.2 then authMiddlewareCatch r.1 else
  -- lines 15-23
  let w := r.1.emit (.jwtVerify token env.JWT_SECRET)
  match env.verify token env.JWT_SECRET with
  | .error _ =>
    -- the inner `catch`: `return res.status(500).json(...)`; when that call
    -- throws, the outer `catch` runs
    let r := resJson w 500
      [("message", .str "something went wrong while verifying the jwt token"),
       ("success", .bool false)]
    if r.2 then authMiddlewareCatch r.1 else r.1
  | .ok decoded =>
    -- lines 24-28
    let w := w.emit (.findUniqueById decoded.id)
    match lookup decoded.id with
    | .error _ => authMiddlewareCatch w
    | .ok user =>
      -- lines 30-35: the response is sent, the function does not return
      let r :=
        if user.isNone then
          resJson w 401 [("message", .str "user not found"),
                         ("success", .bool false)]
        else (w, false)
      if r.2 then authMiddlewareCatch r.1 else
      -- line 37
      let w := r.1.emit (.setReqUser user)
      -- lines 39-43
      let r := resJson w 20 [("message", .str "user authenticated"),
                             ("success", .bool true),
                             ("user", userVal user)]
      if r.2 then authMiddlewareCatch r.1 else
      -- line 45
      r.1.emit .next

/-- The middleware `authMiddleware` (lines 6-53) on the user table: the
lookup by id is that of the credential store accessor. -/
def authMiddleware (env : Env) (req : AuthRequest) (store : Store) : World :=
  authMiddlewareOn (fun id => .ok (findUniqueById store id)) env req store

/-! ## Observations on a trace -/

/-- The cookies set: every `res.cookie(name, value, options)`. -/
def cookies (tr : List Event) : List (String × String × CookieOptions) :=
  tr.filterMap (fun e => match e with
    | .cookie n v o => some (n, v, o)
    | _ => none)

/-- The tokens minted: the payload id of every `jwt.sign` call. -/
def signCalls (tr : List Event) : List Nat :=
  tr.filterMap (fun e => match e with
    | .jwtSign id _ _ => some id
    | _ => none)

/-- The `bcrypt.compare` calls. -/
def compareCalls (tr : List Event) : List (String × String) :=
  tr.filterMap (fun e => match e with
    | .bcryptCompare p d => some (p, d)
    | _ => none)

/-- The `jwt.verify` calls, by the token they were given. -/
def verifyCalls (tr : List Event) : List (Option String) :=
  tr.filterMap (fun e => match e with
    | .jwtVerify t _ => some t
    | _ => none)

/-- The calls on the user table. -/
def storeCalls (tr : List Event) : List Event :=
  tr.filter (fun e => match e with
    | .findUniqueByEmail _ => true
    | .findUniqueById _ => true
    | .create _ => true
    | _ => false)

/-- The values assigned to `req.user`. -/
def reqUserWrites (tr : List Event) : List (Option User) :=
  tr.filterMap (fun e => match e with
    | .setReqUser u => some u
    | _ => none)

/-- The number of `next()` calls. -/
def nextCalls (tr : List Event) : Nat :=
  tr.count .next

/-- The rows of the table that carry a given email. -/
def usersWithEmail (store : Store) (email : String) : List User :=
  store.filter (fun u => u.email == email)

/-! ## The responses of `authMiddleware` -/

/-- The 401 response of lines 10-13. -/
def notAuthenticated : Nat × Body :=
  (401, [("message", .str "user not authenticated"), ("success", .bool false)])

/-- The 500 response of lines 19-22. -/
def verifyFailed : Nat × Body :=
  (500, [("message", .str "something went wrong while verifying the jwt token"),
         ("success", .bool false)])

/-- The 401 response of lines 31-34. -/
def userNotFound : Nat × Body :=
  (401, [("message", .str "user not found"), ("success", .bool false)])

/-- The response of lines 39-43, with the status the source writes. -/
def userAuthenticated (user : Option User) : Nat × Body :=
  (20, [("message", .str "user authenticated"), ("success", .bool true),
        ("user", userVal user)])

/-- The 500 response of the outer `catch`, lines 48-51. -/
def catchResponse : Nat × Body :=
  (500, [("message", .str "user not authenticated"), ("success", .bool false)])

/-! ## A concrete environment -/

/-- A small deterministic environment, used to run the handlers: the digest
of `p` is `#p`, the token of id `n` is `n` times the letter `t`, and a token
verifies when it is made of the letter `t` only. -/
def demoEnv : Env :=
  { JWT_SECRET := some "k"
    NODE_ENV := some "production"
    hash := fun password _ => .ok ("#" ++ password)
    compare := fun password digest => .ok (digest == "#" ++ password)
    sign := fun id _ _ => .ok (String.mk (List.replicate id 't'))
    verify := fun token _ =>
      match token with
      | none => .error (.raised "jwt must be provided")
      | some s =>
        if s.data.all (fun c => c == 't') then .ok { id := s.length }
        else .error (.raised "invalid token")
    genId := fun store => store.length + 1 }

/-- The user Ann of the scenario in the specification, as registered under `demoEnv`. -/
def ann : User :=
  { id := 1, name := "Ann", email := "ann@x.com", password := "#secret123",
    role := UserRole.USER }

/-! ## Lemmas on the store accessor -/

theorem findUniqueByEmail_isSome_of_mem {store : Store} {email : String}
    (h : ∃ u ∈ store, u.email = email) :
    ∃ v, findUniqueByEmail store email = some v := by
  obtain ⟨u, hu, he⟩ := h
  cases hf : findUniqueByEmail store email with
  | some v => exact ⟨v, rfl⟩
  | none =>
    unfold findUniqueByEmail at hf
    rw [List.find?_eq_none] at hf
    exact absurd (by simpa using he) (hf u hu)

theorem usersWithEmail_eq_nil_of_find {store : Store} {email : String}
    (h : findUniqueByEmail store email = none) : usersWithEmail store email = [] := by
  unfold findUniqueByEmail at h
  rw [List.find?_eq_none] at h
  unfold usersWithEmail
  rw [List.filter_eq_nil_iff]
  exact h

/-- What `dbCreate` returns when it returns. -/
theorem dbCreate_ok {env : Env} {store : Store} {data : UserData} {u : User} {s : Store}
    (h : dbCreate env store data = .ok (u, s)) :
    u = ⟨env.genId store, data.name, data.email, data.password, data.role⟩ ∧
    s = store ++ [u] ∧ (∀ v ∈ store, v.id ≠ u.id) ∧ (∀ v ∈ store, v.email ≠ u.email) := by
  unfold dbCreate at h
  simp only at h
  split at h
  · cases h
  · rename_i hany
    injection h with h
    injection h with h1 h2
    subst h1
    subst h2
    refine ⟨rfl, rfl, ?_, ?_⟩
    · intro v hv hid
      apply hany
      rw [List.any_eq_true]
      exact ⟨v, hv, by simp [hid]⟩
    · intro v hv hem
      apply hany
      rw [List.any_eq_true]
      exact ⟨v, hv, by simp [hem]⟩

/-- The trace and table of a `register` call whose email is taken. -/
theorem register_of_found (env : Env) (req : RegisterBody) (store : Store) (v : User)
    (h : findUniqueByEmail store req.email = some v) :
    register env req store =
      ⟨store, [.findUniqueByEmail req.email,
               .json 400 [("error", .str "User already exists")]]⟩ := by
  simp [register, World.emit, h]

/-- A `register` call answers 201 only on the path that creates the user. -/
theorem register_created_inv (env : Env) (req : RegisterBody) (store : Store)
    (h : (responses (register env req store).trace).map Prod.fst = [201]) :
    ∃ digest token newUser newStore,
      findUniqueByEmail store req.email = none ∧
      env.hash req.password 12 = .ok digest ∧
      dbCreate env store ⟨req.name, req.email, digest, UserRole.USER⟩ = .ok (newUser, newStore) ∧
      env.sign newUser.id env.JWT_SECRET "5d" = .ok token ∧
      register env req store =
        ⟨newStore, [.findUniqueByEmail req.email, .bcryptHash req.password 12,
                    .create ⟨req.name, req.email, digest, UserRole.USER⟩,
                    .jwtSign newUser.id env.JWT_SECRET "5d",
                    .cookie "jwt" token (sessionCookieOptions env),
                    .json 201 [("message", .str "User created successfully"),
                               ("user", .user newUser)]]⟩ := by
  cases hf : findUniqueByEmail store req.email with
  | some v => simp [register, World.emit, hf, responses] at h
  | none =>
    cases hh : env.hash req.password 12 with
    | error e => simp [register, registerCatch, World.emit, hf, hh, responses] at h
    | ok digest =>
      cases hc : dbCreate env store ⟨req.name, req.email, digest, UserRole.USER⟩ with
      | error e => simp [register, registerCatch, World.emit, hf, hh, hc, responses] at h
      | ok p =>
        obtain ⟨newUser, newStore⟩ := p
        cases hs : env.sign newUser.id env.JWT_SECRET "5d" with
        | error e => simp [register, registerCatch, World.emit, hf, hh, hc, hs, responses] at h
        | ok token =>
          refine ⟨digest, token, newUser, newStore, rfl, rfl, hc, hs, ?_⟩
          simp [register, World.emit, hf, hh, hc, hs]

/-! ## register -/

/-- C1: whenever the email of the request already belongs to a user of the
table, `register` sends exactly one response, 400 "User already exists",
leaves the table as it was, sets no cookie, signs no token and makes no call
on the table besides the lookup.  Consequently, when a first registration
answers 201, a second registration with the same email (any name, any
password) is answered 400 only, leaves the table unchanged, and the table
then holds exactly one user with that email. -/
theorem register_existing_email_conflict :
    (∀ (env : Env) (req : RegisterBody) (store : Store),
      (∃ u ∈ store, u.email = req.email) →
        responses (register env req store).trace
            = [(400, [("error", .str "User already exists")])] ∧
        (register env req store).store = store ∧
        cookies (register env req store).trace = [] ∧
        signCalls (register env req store).trace = [] ∧
        storeCalls (register env req store).trace = [.findUniqueByEmail req.email]) ∧
    (∀ (env1 env2 : Env) (req1 req2 : RegisterBody) (store0 : Store),
      req2.email = req1.email →
      (responses (register env1 req1 store0).trace).map Prod.fst = [201] →
        responses (register env2 req2 (register env1 req1 store0).store).trace
            = [(400, [("error", .str "User already exists")])] ∧
        (register env2 req2 (register env1 req1 store0).store).store
            = (register env1 req1 store0).store ∧
        (usersWithEmail (register env2 req2 (register env1 req1 store0).store).store
            req1.email).length = 1) := by
  constructor
  · intro env req store h
    obtain ⟨v, hv⟩ := findUniqueByEmail_isSome_of_mem h
    rw [register_of_found env req store v hv]
    simp [responses, cookies, signCalls, storeCalls]
  · intro env1 env2 req1 req2 store0 hemail h201
    obtain ⟨digest, token, newUser, newStore, hf, _, hc, _, hreg⟩ :=
      register_created_inv env1 req1 store0 h201
    obtain ⟨hu, hs, _, _⟩ := dbCreate_ok hc
    have hue : newUser.email = req1.email := by rw [hu]
    have hmem : ∃ u ∈ newStore, u.email = req2.email :=
      ⟨newUser, by rw [hs]; simp, by rw [hue, hemail]⟩
    obtain ⟨v, hv⟩ := findUniqueByEmail_isSome_of_mem hmem
    rw [hreg]
    simp only
    rw [register_of_found env2 req2 newStore v hv]
    refine ⟨by simp [responses], rfl, ?_⟩
    simp only
    rw [hs]
    unfold usersWithEmail
    rw [List.filter_append]
    have h0 := usersWithEmail_eq_nil_of_find hf
    unfold usersWithEmail at h0
    rw [h0]
    simp [hue]

/-- C1, run: Ann registers on the empty table, then someone registers
`ann@x.com` again. -/
theorem register_existing_email_conflict_witness :
    (responses (register demoEnv ⟨"Ann2", "ann@x.com", "other"⟩ [ann]).trace
        = [(400, [("error", .str "User already exists")])] ∧
      (register demoEnv ⟨"Ann2", "ann@x.com", "other"⟩ [ann]).store = [ann] ∧
      cookies (register demoEnv ⟨"Ann2", "ann@x.com", "other"⟩ [ann]).trace = [] ∧
      signCalls (register demoEnv ⟨"Ann2", "ann@x.com", "other"⟩ [ann]).trace = [] ∧
      storeCalls (register demoEnv ⟨"Ann2", "ann@x.com", "other"⟩ [ann]).trace
        = [.findUniqueByEmail "ann@x.com"]) ∧
    (responses (register demoEnv ⟨"Ann2", "ann@x.com", "other"⟩
        (register demoEnv ⟨"Ann", "ann@x.com", "secret123"⟩ []).store).trace
        = [(400, [("error", .str "User already exists")])] ∧
      (register demoEnv ⟨"Ann2", "ann@x.com", "other"⟩
        (register demoEnv ⟨"Ann", "ann@x.com", "secret123"⟩ []).store).store
        = (register demoEnv ⟨"Ann", "ann@x.com", "secret123"⟩ []).store ∧
      (usersWithEmail (register demoEnv ⟨"Ann2", "ann@x.com", "other"⟩
        (register demoEnv ⟨"Ann", "ann@x.com", "secret123"⟩ []).store).store
        "ann@x.com").length = 1) :=
  ⟨register_existing_email_conflict.1 demoEnv ⟨"Ann2", "ann@x.com", "other"⟩ [ann]
      ⟨ann, by decide, by decide⟩,
   register_existing_email_conflict.2 demoEnv demoEnv ⟨"Ann", "ann@x.com", "secret123"⟩
      ⟨"Ann2", "ann@x.com", "other"⟩ [] (by decide) (by decide)⟩

/-- C2: when the email of the request belongs to no user of the table and
`bcrypt.hash`, `db.user.create` and `jwt.sign` return, `register` inserts
exactly one row, the created user, whose role is USER and whose password is
the digest `hash(password, 12)` (so it differs from the plaintext whenever
the digest does); it sets the one cookie `jwt` to the token signed for the
id of the created user with `expiresIn` "5d", with `httpOnly` true,
`sameSite` "strict", `secure` iff `NODE_ENV` is not "development" and
`maxAge` 432000000; and it sends exactly one response, 201, carrying the
created user. -/
theorem register_new_email_creates_user
    (env : Env) (req : RegisterBody) (store : Store)
    (digest token : String) (newUser : User) (newStore : Store)
    (hnew : ∀ u ∈ store, u.email ≠ req.email)
    (hhash : env.hash req.password 12 = .ok digest)
    (hcreate : dbCreate env store ⟨req.name, req.email, digest, UserRole.USER⟩
        = .ok (newUser, newStore))
    (hsign : env.sign newUser.id env.JWT_SECRET "5d" = .ok token) :
    (register env req store).store = store ++ [newUser] ∧
    newUser.role = UserRole.USER ∧
    newUser.name = req.name ∧
    newUser.email = req.email ∧
    newUser.password = digest ∧
    (digest ≠ req.password → newUser.password ≠ req.password) ∧
    (∀ e ∈ (register env req store).trace, ∀ id secret ttl,
        e = Event.jwtSign id secret ttl →
          id = newUser.id ∧ secret = env.JWT_SECRET ∧ ttl = "5d") ∧
    signCalls (register env req store).trace = [newUser.id] ∧
    cookies (register env req store).trace
      = [("jwt", token,
          ⟨true, "strict", decide (env.NODE_ENV ≠ some "development"), 432000000⟩)] ∧
    responses (register env req store).trace
      = [(201, [("message", .str "User created successfully"), ("user", .user newUser)])] := by
  have hf : findUniqueByEmail store req.email = none := by
    unfold findUniqueByEmail
    rw [List.find?_eq_none]
    intro u hu
    simpa using hnew u hu
  obtain ⟨hu, hs, _, _⟩ := dbCreate_ok hcreate
  have hreg : register env req store =
      ⟨newStore, [.findUniqueByEmail req.email, .bcryptHash req.password 12,
                  .create ⟨req.name, req.email, digest, UserRole.USER⟩,
                  .jwtSign newUser.id env.JWT_SECRET "5d",
                  .cookie "jwt" token (sessionCookieOptions env),
                  .json 201 [("message", .str "User created successfully"),
                             ("user", .user newUser)]]⟩ := by
    simp [register, World.emit, hf, hhash, hcreate, hsign]
  rw [hreg]
  have hpw : newUser.password = digest := by rw [hu]
  refine ⟨hs, by rw [hu], by rw [hu], by rw [hu], hpw, ?_, ?_, ?_, ?_, ?_⟩
  · intro hne
    rw [hpw]
    exact hne
  · intro e he id secret ttl heq
    subst heq
    simp at he
    exact he
  · simp [signCalls]
  · simp [cookies, sessionCookieOptions, bne, beq_eq_decide]
  · simp [responses]

/-- C2, run: Ann registers on the empty table. -/
theorem register_new_email_creates_user_witness :
    (register demoEnv ⟨"Ann", "ann@x.com", "secret123"⟩ []).store = [] ++ [ann] ∧
    ann.role = UserRole.USER ∧
    ann.name = "Ann" ∧
    ann.email = "ann@x.com" ∧
    ann.password = "#secret123" ∧
    ("#secret123" ≠ "secret123" → ann.password ≠ "secret123") ∧
    (∀ e ∈ (register demoEnv ⟨"Ann", "ann@x.com", "secret123"⟩ []).trace, ∀ id secret ttl,
        e = Event.jwtSign id secret ttl →
          id = ann.id ∧ secret = demoEnv.JWT_SECRET ∧ ttl = "5d") ∧
    signCalls (register demoEnv ⟨"Ann", "ann@x.com", "secret123"⟩ []).trace = [ann.id] ∧
    cookies (register demoEnv ⟨"Ann", "ann@x.com", "secret123"⟩ []).trace
      = [("jwt", "t",
          ⟨true, "strict", decide (demoEnv.NODE_ENV ≠ some "development"), 432000000⟩)] ∧
    responses (register demoEnv ⟨"Ann", "ann@x.com", "secret123"⟩ []).trace
      = [(201, [("message", .str "User created successfully"), ("user", .user ann)])] :=
  register_new_email_creates_user demoEnv ⟨"Ann", "ann@x.com", "secret123"⟩ []
    "#secret123" "t" ann [ann] (by decide) rfl rfl rfl

/-! ## login -/

/-- C3: for an email that has no user in the table, `login` sends the 400
response and then goes on: line 74 reads `password` of the absent user, which
throws a `TypeError`, and the `catch` block sends a second response, 500,
carrying that error.  `bcrypt.compare` is not called and no cookie is set. -/
theorem login_unknown_email_falls_through
    (env : Env) (req : LoginBody) (store : Store)
    (h : ∀ u ∈ store, u.email ≠ req.email) :
    (login env req store).trace
      = [.findUniqueByEmail req.email,
         .json 400 [("error", .str "user not found, please register.")],
         .json 500 [("message", .str "something went wrong while logging in."),
                    ("error", .err (.typeError
                      "Cannot read properties of null (reading password)"))]] ∧
    (responses (login env req store).trace).map Prod.fst = [400, 500] ∧
    compareCalls (login env req store).trace = [] ∧
    cookies (login env req store).trace = [] := by
  have hf : findUniqueByEmail store req.email = none := by
    unfold findUniqueByEmail
    rw [List.find?_eq_none]
    intro u hu
    simpa using h u hu
  have ht : (login env req store).trace
      = [.findUniqueByEmail req.email,
         .json 400 [("error", .str "user not found, please register.")],
         .json 500 [("message", .str "something went wrong while logging in."),
                    ("error", .err (.typeError
                      "Cannot read properties of null (reading password)"))]] := by
    simp [login, loginCatch, World.emit, hf]
  rw [ht]
  simp [responses, compareCalls, cookies]

/-- C3, run: `login("nobody@x.com", "any")` against the table holding Ann. -/
theorem login_unknown_email_falls_through_witness :
    (login demoEnv ⟨"nobody@x.com", "any"⟩ [ann]).trace
      = [.findUniqueByEmail "nobody@x.com",
         .json 400 [("error", .str "user not found, please register.")],
         .json 500 [("message", .str "something went wrong while logging in."),
                    ("error", .err (.typeError
                      "Cannot read properties of null (reading password)"))]] ∧
    (responses (login demoEnv ⟨"nobody@x.com", "any"⟩ [ann]).trace).map Prod.fst
      = [400, 500] ∧
    compareCalls (login demoEnv ⟨"nobody@x.com", "any"⟩ [ann]).trace = [] ∧
    cookies (login demoEnv ⟨"nobody@x.com", "any"⟩ [ann]).trace = [] :=
  login_unknown_email_falls_through demoEnv ⟨"nobody@x.com", "any"⟩ [ann] (by decide)

/-- C4: when the email of the request has the user `user` in the table,
`bcrypt.compare(password, user.password)` returns `b` and (if `b`) `jwt.sign`
returns `token`: `login` sends exactly one response and leaves the table as
it was; if `b` is true the response is 200 with `user` and the one cookie
`jwt` is set to the token signed for `user.id` with `expiresIn` "5d" and the
options of registration; if `b` is false the response is 404 "wrong
credentials" and no cookie is set.  So the answer is 200 exactly when the
comparison is true. -/
theorem login_existing_user
    (env : Env) (req : LoginBody) (store : Store) (user : User) (b : Bool) (token : String)
    (hfind : findUniqueByEmail store req.email = some user)
    (hcmp : env.compare req.password user.password = .ok b)
    (hsign : b = true → env.sign user.id env.JWT_SECRET "5d" = .ok token) :
    responses (login env req store).trace
      = (if b then [(200, [("message", .str "User logged in successfully"),
                           ("user", .user user)])]
         else [(404, [("message", .str "wrong credentials")])]) ∧
    cookies (login env req store).trace
      = (if b then
           [("jwt", token,
             ⟨true, "strict", decide (env.NODE_ENV ≠ some "development"), 432000000⟩)]
         else []) ∧
    (login env req store).trace.filter
        (fun e => match e with
          | .jwtSign _ _ _ => true
          | _ => false)
      = (if b then [.jwtSign user.id env.JWT_SECRET "5d"] else []) ∧
    (responses (login env req store).trace).length = 1 ∧
    (login env req store).store = store ∧
    ((responses (login env req store).trace).map Prod.fst = [200] ↔ b = true) := by
  cases b with
  | true =>
    have hs := hsign rfl
    have hl : login env req store =
        ⟨store, [.findUniqueByEmail req.email,
                 .bcryptCompare req.password user.password,
                 .jwtSign user.id env.JWT_SECRET "5d",
                 .cookie "jwt" token (sessionCookieOptions env),
                 .json 200 [("message", .str "User logged in successfully"),
                            ("user", .user user)]]⟩ := by
      simp [login, World.emit, hfind, hcmp, hs]
    rw [hl]
    simp [responses, cookies, sessionCookieOptions, bne, beq_eq_decide]
  | false =>
    have hl : login env req store =
        ⟨store, [.findUniqueByEmail req.email,
                 .bcryptCompare req.password user.password,
                 .json 404 [("message", .str "wrong credentials")]]⟩ := by
      simp [login, World.emit, hfind, hcmp]
    rw [hl]
    simp [responses, cookies]

/-- C4, run: Ann logs in with a wrong password, then with her password. -/
theorem login_existing_user_witness :
    (responses (login demoEnv ⟨"ann@x.com", "wrong"⟩ [ann]).trace
        = [(404, [("message", .str "wrong credentials")])] ∧
      cookies (login demoEnv ⟨"ann@x.com", "wrong"⟩ [ann]).trace = [] ∧
      (login demoEnv ⟨"ann@x.com", "wrong"⟩ [ann]).trace.filter
          (fun e => match e with
            | .jwtSign _ _ _ => true
            | _ => false)
        = [] ∧
      (responses (login demoEnv ⟨"ann@x.com", "wrong"⟩ [ann]).trace).length = 1 ∧
      (login demoEnv ⟨"ann@x.com", "wrong"⟩ [ann]).store = [ann] ∧
      ((responses (login demoEnv ⟨"ann@x.com", "wrong"⟩ [ann]).trace).map Prod.fst = [200]
        ↔ false = true)) ∧
    (responses (login demoEnv ⟨"ann@x.com", "secret123"⟩ [ann]).trace
        = [(200, [("message", .str "User logged in successfully"), ("user", .user ann)])] ∧
      cookies (login demoEnv ⟨"ann@x.com", "secret123"⟩ [ann]).trace
        = [("jwt", "t", ⟨true, "strict", true, 432000000⟩)] ∧
      (login demoEnv ⟨"ann@x.com", "secret123"⟩ [ann]).trace.filter
          (fun e => match e with
            | .jwtSign _ _ _ => true
            | _ => false)
        = [.jwtSign 1 (some "k") "5d"] ∧
      (responses (login demoEnv ⟨"ann@x.com", "secret123"⟩ [ann]).trace).length = 1 ∧
      (login demoEnv ⟨"ann@x.com", "secret123"⟩ [ann]).store = [ann] ∧
      ((responses (login demoEnv ⟨"ann@x.com", "secret123"⟩ [ann]).trace).map Prod.fst = [200]
        ↔ true = true)) :=
  ⟨login_existing_user demoEnv ⟨"ann@x.com", "wrong"⟩ [ann] ann false "t" rfl rfl
      (fun h => absurd h (by decide)),
   login_existing_user demoEnv ⟨"ann@x.com", "secret123"⟩ [ann] ann true "t" rfl rfl
      (fun _ => rfl)⟩

/-! ## authMiddleware -/

/-- The trace of `authMiddleware` when `jwt.verify` throws. -/
theorem authMiddleware_of_verify_error (env : Env) (req : AuthRequest) (store : Store)
    (e : JsError) (h : env.verify req.jwt env.JWT_SECRET = .error e) :
    authMiddleware env req store =
      ⟨store,
        if truthy req.jwt then
          [.jwtVerify req.jwt env.JWT_SECRET, .json verifyFailed.1 verifyFailed.2]
        else
          [.json notAuthenticated.1 notAuthenticated.2,
           .jwtVerify req.jwt env.JWT_SECRET,
           .json verifyFailed.1 verifyFailed.2,
           .json catchResponse.1 catchResponse.2]⟩ := by
  cases ht : truthy req.jwt <;>
    simp [authMiddleware, authMiddlewareOn, authMiddlewareCatch, resJson, headersSent,
      sentResponse, responses, validStatus, World.emit, h, ht, notAuthenticated,
      verifyFailed, catchResponse]

/-- The trace of `authMiddleware` when `jwt.verify` returns and the lookup
finds a user. -/
theorem authMiddleware_of_found (env : Env) (req : AuthRequest) (store : Store)
    (claims : Claims) (user : User)
    (h : env.verify req.jwt env.JWT_SECRET = .ok claims)
    (hu : findUniqueById store claims.id = some user) :
    authMiddleware env req store =
      ⟨store,
        (if truthy req.jwt then [] else [.json notAuthenticated.1 notAuthenticated.2])
          ++ [.jwtVerify req.jwt env.JWT_SECRET,
              .findUniqueById claims.id,
              .setReqUser (some user),
              .json (userAuthenticated (some user)).1 (userAuthenticated (some user)).2,
              .json catchResponse.1 catchResponse.2]⟩ := by
  cases ht : truthy req.jwt <;>
    simp [authMiddleware, authMiddlewareOn, authMiddlewareCatch, resJson, headersSent,
      sentResponse, responses, validStatus, World.emit, h, ht, hu, notAuthenticated,
      userAuthenticated, catchResponse]

/-- The trace of `authMiddleware` when `jwt.verify` returns and the lookup
finds no user. -/
theorem authMiddleware_of_missing (env : Env) (req : AuthRequest) (store : Store)
    (claims : Claims)
    (h : env.verify req.jwt env.JWT_SECRET = .ok claims)
    (hu : findUniqueById store claims.id = none) :
    authMiddleware env req store =
      ⟨store,
        if truthy req.jwt then
          [.jwtVerify req.jwt env.JWT_SECRET,
           .findUniqueById claims.id,
           .json userNotFound.1 userNotFound.2,
           .setReqUser none,
           .json (userAuthenticated none).1 (userAuthenticated none).2,
           .json catchResponse.1 catchResponse.2]
        else
          [.json notAuthenticated.1 notAuthenticated.2,
           .jwtVerify req.jwt env.JWT_SECRET,
           .findUniqueById claims.id,
           .json userNotFound.1 userNotFound.2,
           .json catchResponse.1 catchResponse.2]⟩ := by
  cases ht : truthy req.jwt <;>
    simp [authMiddleware, authMiddlewareOn, authMiddlewareCatch, resJson, headersSent,
      sentResponse, responses, validStatus, World.emit, h, ht, hu, notAuthenticated,
      userNotFound, userAuthenticated, catchResponse]

/-- The trace of the middleware when the token is present and verifies and
`db.user.findUnique` throws: the outer `catch` answers 500. -/
theorem authMiddlewareOn_of_lookup_error
    (lookup : Nat → Except JsError (Option User))
    (env : Env) (req : AuthRequest) (store : Store) (claims : Claims) (e : JsError)
    (hpresent : truthy req.jwt = true)
    (h : env.verify req.jwt env.JWT_SECRET = .ok claims)
    (hl : lookup claims.id = .error e) :
    authMiddlewareOn lookup env req store =
      ⟨store, [.jwtVerify req.jwt env.JWT_SECRET,
               .findUniqueById claims.id,
               .json catchResponse.1 catchResponse.2]⟩ := by
  simp [authMiddlewareOn, authMiddlewareCatch, resJson, World.emit, h, hl, hpresent,
    catchResponse]

/-- On no path does `authMiddleware` reach the call `next()` of line 45: the
call `res.status(20).json(...)` of line 39 throws before it. -/
theorem authMiddleware_nextCalls (env : Env) (req : AuthRequest) (store : Store) :
    nextCalls (authMiddleware env req store).trace = 0 := by
  cases hv : env.verify req.jwt env.JWT_SECRET with
  | error e =>
    rw [authMiddleware_of_verify_error env req store e hv]
    cases truthy req.jwt <;> simp [nextCalls]
  | ok claims =>
    cases hu : findUniqueById store claims.id with
    | none =>
      rw [authMiddleware_of_missing env req store claims hv hu]
      cases truthy req.jwt <;> simp [nextCalls]
    | some user =>
      rw [authMiddleware_of_found env req store claims user hv hu]
      cases truthy req.jwt <;> simp [nextCalls]

/-- C5: on a request without the `jwt` cookie, `authMiddleware` sends the 401
"user not authenticated" response, the only one that goes out, and then goes
on: it calls `jwt.verify` on the absent token and evaluates
`res.status(..).json(..)` two more times, each of which throws (in `demoEnv`,
where that verification throws: the 500 of the inner `catch`, then the 500 of
the outer `catch`).  It does not call `next`. -/
theorem authMiddleware_no_cookie_falls_through (env : Env) (store : Store) :
    verifyCalls (authMiddleware env ⟨none⟩ store).trace = [none] ∧
    responses (authMiddleware env ⟨none⟩ store).trace
      = [notAuthenticated,
         (match env.verify none env.JWT_SECRET with
          | .error _ => verifyFailed
          | .ok claims =>
            match findUniqueById store claims.id with
            | none => userNotFound
            | some user => userAuthenticated (some user)),
         catchResponse] ∧
    sentResponse (authMiddleware env ⟨none⟩ store).trace
      = some (401, [("message", .str "user not authenticated"), ("success", .bool false)]) ∧
    nextCalls (authMiddleware env ⟨none⟩ store).trace = 0 ∧
    (authMiddleware demoEnv ⟨none⟩ [ann]).trace
      = [.json 401 [("message", .str "user not authenticated"), ("success", .bool false)],
         .jwtVerify none (some "k"),
         .json 500 [("message", .str "something went wrong while verifying the jwt token"),
                    ("success", .bool false)],
         .json 500 [("message", .str "user not authenticated"), ("success", .bool false)]] := by
  refine ⟨?_, ?_, ?_, authMiddleware_nextCalls env ⟨none⟩ store, by decide⟩
  all_goals
    cases hv : env.verify none env.JWT_SECRET with
    | error e =>
      rw [authMiddleware_of_verify_error env ⟨none⟩ store e hv]
      simp [truthy, verifyCalls, responses, sentResponse, validStatus, notAuthenticated,
        verifyFailed, catchResponse]
    | ok claims =>
      cases hu : findUniqueById store claims.id with
      | none =>
        rw [authMiddleware_of_missing env ⟨none⟩ store claims hv hu]
        simp [truthy, verifyCalls, responses, sentResponse, validStatus, notAuthenticated,
          userNotFound, catchResponse, hu]
      | some user =>
        rw [authMiddleware_of_found env ⟨none⟩ store claims user hv hu]
        simp [truthy, verifyCalls, responses, sentResponse, validStatus, notAuthenticated,
          userAuthenticated, catchResponse, hu]

/-- C6: when the `jwt` cookie is present and verifies and no user of the table
has the embedded id, `authMiddleware` sends the 401 "user not found" response,
the only one that goes out, and then goes on: it assigns `null` to `req.user`
and evaluates `res.status(20).json(...)` with user `null`, which throws, and
then the call of the outer `catch`, which throws too.  It does not call
`next`. -/
theorem authMiddleware_missing_user_falls_through
    (env : Env) (req : AuthRequest) (store : Store) (claims : Claims)
    (hpresent : truthy req.jwt = true)
    (hverify : env.verify req.jwt env.JWT_SECRET = .ok claims)
    (hmissing : findUniqueById store claims.id = none) :
    (authMiddleware env req store).trace
      = [.jwtVerify req.jwt env.JWT_SECRET,
         .findUniqueById claims.id,
         .json 401 [("message", .str "user not found"), ("success", .bool false)],
         .setReqUser none,
         .json 20 [("message", .str "user authenticated"), ("success", .bool true),
                   ("user", .null)],
         .json 500 [("message", .str "user not authenticated"), ("success", .bool false)]] ∧
    sentResponse (authMiddleware env req store).trace
      = some (401, [("message", .str "user not found"), ("success", .bool false)]) ∧
    reqUserWrites (authMiddleware env req store).trace = [none] ∧
    nextCalls (authMiddleware env req store).trace = 0 := by
  rw [authMiddleware_of_missing env req store claims hverify hmissing]
  simp [hpresent, userNotFound, userAuthenticated, catchResponse, userVal, responses,
    sentResponse, validStatus, reqUserWrites, nextCalls]

/-- C6, run: the token of id 7 against the table holding Ann (id 1). -/
theorem authMiddleware_missing_user_falls_through_witness :
    (authMiddleware demoEnv ⟨some "ttttttt"⟩ [ann]).trace
      = [.jwtVerify (some "ttttttt") (some "k"),
         .findUniqueById 7,
         .json 401 [("message", .str "user not found"), ("success", .bool false)],
         .setReqUser none,
         .json 20 [("message", .str "user authenticated"), ("success", .bool true),
                   ("user", .null)],
         .json 500 [("message", .str "user not authenticated"), ("success", .bool false)]] ∧
    sentResponse (authMiddleware demoEnv ⟨some "ttttttt"⟩ [ann]).trace
      = some (401, [("message", .str "user not found"), ("success", .bool false)]) ∧
    reqUserWrites (authMiddleware demoEnv ⟨some "ttttttt"⟩ [ann]).trace = [none] ∧
    nextCalls (authMiddleware demoEnv ⟨some "ttttttt"⟩ [ann]).trace = 0 :=
  authMiddleware_missing_user_falls_through demoEnv ⟨some "ttttttt"⟩ [ann] ⟨7⟩
    (by decide) rfl (by decide)

/-- C7: when the `jwt` cookie is present and `jwt.verify` throws on it,
`authMiddleware` sends exactly one response, 500 with `success: false`, makes
no call on the table, does not assign `req.user` and does not call `next`. -/
theorem authMiddleware_invalid_token_rejected
    (env : Env) (req : AuthRequest) (store : Store) (e : JsError)
    (hpresent : truthy req.jwt = true)
    (hfail : env.verify req.jwt env.JWT_SECRET = .error e) :
    responses (authMiddleware env req store).trace
      = [(500, [("message", .str "something went wrong while verifying the jwt token"),
                ("success", .bool false)])] ∧
    storeCalls (authMiddleware env req store).trace = [] ∧
    reqUserWrites (authMiddleware env req store).trace = [] ∧
    nextCalls (authMiddleware env req store).trace = 0 ∧
    (authMiddleware env req store).store = store := by
  rw [authMiddleware_of_verify_error env req store e hfail]
  simp [hpresent, verifyFailed, responses, storeCalls, reqUserWrites, nextCalls]

/-- C7, run: a token that does not verify, against the table holding Ann. -/
theorem authMiddleware_invalid_token_rejected_witness :
    responses (authMiddleware demoEnv ⟨some "expired"⟩ [ann]).trace
      = [(500, [("message", .str "something went wrong while verifying the jwt token"),
                ("success", .bool false)])] ∧
    storeCalls (authMiddleware demoEnv ⟨some "expired"⟩ [ann]).trace = [] ∧
    reqUserWrites (authMiddleware demoEnv ⟨some "expired"⟩ [ann]).trace = [] ∧
    nextCalls (authMiddleware demoEnv ⟨some "expired"⟩ [ann]).trace = 0 ∧
    (authMiddleware demoEnv ⟨some "expired"⟩ [ann]).store = [ann] :=
  authMiddleware_invalid_token_rejected demoEnv ⟨some "expired"⟩ [ann]
    (.raised "invalid token") (by decide) rfl

/-- C8: when the `jwt` cookie is present and verifies and the table holds the
user of the embedded id, `authMiddleware` assigns that stored user to
`req.user`, and then the call `res.status(20).json(...)` of line 39 throws,
the outer `catch` runs, and `next` is not called. -/
theorem authMiddleware_user_found_no_next
    (env : Env) (req : AuthRequest) (store : Store) (claims : Claims) (user : User)
    (hpresent : truthy req.jwt = true)
    (hverify : env.verify req.jwt env.JWT_SECRET = .ok claims)
    (hfound : findUniqueById store claims.id = some user) :
    (authMiddleware env req store).trace
      = [.jwtVerify req.jwt env.JWT_SECRET,
         .findUniqueById claims.id,
         .setReqUser (some user),
         .json 20 [("message", .str "user authenticated"), ("success", .bool true),
                   ("user", .user user)],
         .json 500 [("message", .str "user not authenticated"), ("success", .bool false)]] ∧
    reqUserWrites (authMiddleware env req store).trace = [some user] ∧
    nextCalls (authMiddleware env req store).trace = 0 := by
  rw [authMiddleware_of_found env req store claims user hverify hfound]
  simp [hpresent, userAuthenticated, catchResponse, userVal, reqUserWrites, nextCalls]

/-- C8, run: the token of Ann against the table holding Ann. -/
theorem authMiddleware_user_found_no_next_witness :
    (authMiddleware demoEnv ⟨some "t"⟩ [ann]).trace
      = [.jwtVerify (some "t") (some "k"),
         .findUniqueById 1,
         .setReqUser (some ann),
         .json 20 [("message", .str "user authenticated"), ("success", .bool true),
                   ("user", .user ann)],
         .json 500 [("message", .str "user not authenticated"), ("success", .bool false)]] ∧
    reqUserWrites (authMiddleware demoEnv ⟨some "t"⟩ [ann]).trace = [some ann] ∧
    nextCalls (authMiddleware demoEnv ⟨some "t"⟩ [ann]).trace = 0 :=
  authMiddleware_user_found_no_next demoEnv ⟨some "t"⟩ [ann] ⟨1⟩ ann (by decide) rfl
    (by decide)

/-- C9: when the `jwt` cookie is present and verifies and the table holds the
user of the embedded id, the user-bearing success response is evaluated with
status 20, which no Node response accepts, so that call throws and the
response that goes out is the 500 "user not authenticated" of the outer
`catch`: no call carries status 200 and the status sent is not 200. -/
theorem authMiddleware_success_status_is_20
    (env : Env) (req : AuthRequest) (store : Store) (claims : Claims) (user : User)
    (hpresent : truthy req.jwt = true)
    (hverify : env.verify req.jwt env.JWT_SECRET = .ok claims)
    (hfound : findUniqueById store claims.id = some user) :
    responses (authMiddleware env req store).trace
      = [(20, [("message", .str "user authenticated"), ("success", .bool true),
               ("user", .user user)]),
         (500, [("message", .str "user not authenticated"), ("success", .bool false)])] ∧
    validStatus 20 = false ∧
    sentResponse (authMiddleware env req store).trace
      = some (500, [("message", .str "user not authenticated"), ("success", .bool false)]) ∧
    ¬ (∃ r ∈ responses (authMiddleware env req store).trace, r.1 = 200) := by
  rw [authMiddleware_of_found env req store claims user hverify hfound]
  simp [hpresent, userAuthenticated, catchResponse, userVal, responses, sentResponse,
    validStatus]

/-- C9, run: the token of Ann against the table holding Ann. -/
theorem authMiddleware_success_status_is_20_witness :
    responses (authMiddleware demoEnv ⟨some "t"⟩ [ann]).trace
      = [(20, [("message", .str "user authenticated"), ("success", .bool true),
               ("user", .user ann)]),
         (500, [("message", .str "user not authenticated"), ("success", .bool false)])] ∧
    validStatus 20 = false ∧
    sentResponse (authMiddleware demoEnv ⟨some "t"⟩ [ann]).trace
      = some (500, [("message", .str "user not authenticated"), ("success", .bool false)]) ∧
    ¬ (∃ r ∈ responses (authMiddleware demoEnv ⟨some "t"⟩ [ann]).trace, r.1 = 200) :=
  authMiddleware_success_status_is_20 demoEnv ⟨some "t"⟩ [ann] ⟨1⟩ ann (by decide) rfl
    (by decide)

/-! ## register, then authMiddleware -/

/-- The tokens of `demoEnv` verify to the id they were signed for. -/
theorem demoEnv_verify_sign (id : Nat) (t : String)
    (h : demoEnv.sign id demoEnv.JWT_SECRET "5d" = .ok t) :
    demoEnv.verify (some t) demoEnv.JWT_SECRET = .ok ⟨id⟩ := by
  simp only [demoEnv, Except.ok.injEq] at h
  subst h
  have hall : (List.replicate id 't').all (fun c => c == 't') = true := by
    rw [List.all_eq_true]
    intro c hc
    rw [List.eq_of_mem_replicate hc]
    rfl
  show (if (List.replicate id 't').all (fun c => c == 't') = true
        then Except.ok (Claims.mk (List.replicate id 't').length)
        else Except.error (JsError.raised "invalid token")) = Except.ok (Claims.mk id)
  rw [if_pos hall, List.length_replicate]

/-- C10: assume that `jwt.verify`, under the same `JWT_SECRET`, returns the
claims of every token `jwt.sign` issued.  Then for every `register` call
answered 201, presenting the value of the cookie it set to `authMiddleware`
on the resulting table resolves to the created user: the lookup is made with
the id of the created user, and `req.user` is assigned the record that
`register` inserted and returned. -/
theorem register_token_resolves_to_created_user
    (env : Env) (req : RegisterBody) (store : Store) (token : String) (opts : CookieOptions)
    (hroundtrip : ∀ (id : Nat) (t : String),
      env.sign id env.JWT_SECRET "5d" = .ok t →
        env.verify (some t) env.JWT_SECRET = .ok ⟨id⟩)
    (hok : (responses (register env req store).trace).map Prod.fst = [201])
    (hcookie : ("jwt", token, opts) ∈ cookies (register env req store).trace) :
    ∃ newUser : User,
      responses (register env req store).trace
        = [(201, [("message", .str "User created successfully"),
                  ("user", .user newUser)])] ∧
      (register env req store).store = store ++ [newUser] ∧
      storeCalls (authMiddleware env ⟨some token⟩ (register env req store).store).trace
        = [.findUniqueById newUser.id] ∧
      reqUserWrites (authMiddleware env ⟨some token⟩ (register env req store).store).trace
        = [some newUser] := by
  obtain ⟨digest, tok, newUser, newStore, _, _, hc, hs, hreg⟩ :=
    register_created_inv env req store hok
  obtain ⟨_, hst, hid, _⟩ := dbCreate_ok hc
  rw [hreg] at hcookie ⊢
  have htok : token = tok := by
    simp [cookies] at hcookie
    exact hcookie.1
  subst htok
  have hv := hroundtrip newUser.id token hs
  have hfind : findUniqueById newStore newUser.id = some newUser := by
    rw [hst]
    unfold findUniqueById
    rw [List.find?_append]
    have h0 : List.find? (fun u => u.id == newUser.id) store = none := by
      rw [List.find?_eq_none]
      intro u hu
      simpa using hid u hu
    rw [h0]
    simp
  refine ⟨newUser, by simp [responses], hst, ?_, ?_⟩
  · simp only
    rw [authMiddleware_of_found env ⟨some token⟩ newStore ⟨newUser.id⟩ newUser hv hfind]
    cases truthy (some token) <;> simp [storeCalls]
  · simp only
    rw [authMiddleware_of_found env ⟨some token⟩ newStore ⟨newUser.id⟩ newUser hv hfind]
    cases truthy (some token) <;> simp [reqUserWrites]

/-- C10, run: Ann registers on the empty table and presents the cookie. -/
theorem register_token_resolves_to_created_user_witness :
    ∃ newUser : User,
      responses (register demoEnv ⟨"Ann", "ann@x.com", "secret123"⟩ []).trace
        = [(201, [("message", .str "User created successfully"),
                  ("user", .user newUser)])] ∧
      (register demoEnv ⟨"Ann", "ann@x.com", "secret123"⟩ []).store = [] ++ [newUser] ∧
      storeCalls (authMiddleware demoEnv ⟨some "t"⟩
          (register demoEnv ⟨"Ann", "ann@x.com", "secret123"⟩ []).store).trace
        = [.findUniqueById newUser.id] ∧
      reqUserWrites (authMiddleware demoEnv ⟨some "t"⟩
          (register demoEnv ⟨"Ann", "ann@x.com", "secret123"⟩ []).store).trace
        = [some newUser] :=
  register_token_resolves_to_created_user demoEnv ⟨"Ann", "ann@x.com", "secret123"⟩ []
    "t" ⟨true, "strict", true, 432000000⟩ demoEnv_verify_sign (by decide) (by decide)

end Leetlab
